import Mathlib

/-!
A shallow embedding of the fixr client library (src/client.go), a typed Go
client for a ticketing HTTP/JSON API, together with proofs about its
envelope-decoding, header construction, booking validation and payload
construction logic.

Modelling conventions:
* Go `int` is modelled as `Int`, Go `string` as `String`.
* Go `float64` fields (`Price`, `BookingFee`) are modelled as `ℚ`; the only
  arithmetic performed on them is `BookingFee + Price > 0`, whose sign is
  exact for the non-negative decimal values the API contract supplies.
* Go maps used as ordered-irrelevant field collections (`payload`,
  `http.Header`) are modelled as association lists with overwrite-on-insert,
  matching Go's composite-literal semantics where a duplicate key keeps the
  last value.
* The HTTP transport, the JSON codec and the remote service are external
  collaborators: a request's outcome is an explicit `ReqOutcome` value
  (transport failure, malformed body, or a parsed value), and the domain
  operations are functions of that outcome.
* `genKey` and `jsonifyPayload` live in repository files outside
  `src/`; `genKey`'s output is passed in as an explicit `key : String`
  argument, and `jsonifyPayload` (JSON marshalling of string/int fields,
  which cannot fail) is not modelled as a failure source.
-/

/-- Wire constant from src/client.go. -/
def cardURL : String := "https://api.stripe.com/v1/tokens"

/-- Wire constant from src/client.go. -/
def bookingURL : String := "https://api.fixr-app.com/api/v2/app/booking"

/-- Wire constant from src/client.go. -/
def FixrVersion : String := "1.34.0"

/-- Wire constant from src/client.go. -/
def FixrPlatformVer : String := "Chrome/51.0.2704.103"

/-- Wire constant from src/client.go. -/
def UserAgent : String :=
  "Mozilla/5.0 (X11; Linux x86_64) AppleWebKit/537.36 (KHTML, like Gecko) Chrome/51.0.2704.103 Safari/537.36"

/-- A JSON payload value: the domain operations only ever store ints and
strings in a payload. -/
inductive PVal where
  | int (i : Int)
  | str (s : String)
  deriving DecidableEq, Repr

/-- Go declares `type payload` as a map from string to interface value: an
unordered string-keyed mapping,
modelled as an association list with overwrite-on-insert. -/
def Payload := List (String × PVal)

/-- Insertion into a Go map: overwrite the existing entry if the key is
present, append otherwise. -/
def mapInsert (m : List (String × PVal)) (k : String) (v : PVal) :
    List (String × PVal) :=
  if m.any (fun p => p.1 = k) then
    m.map (fun p => if p.1 = k then (k, v) else p)
  else m ++ [(k, v)]

/-- Struct `Ticket` from src/client.go. -/
structure Ticket where
  id : Int
  name : String
  type : Int
  currency : String
  price : ℚ
  bookingFee : ℚ
  max : Int
  soldOut : Bool
  expired : Bool
  invalid : Bool
  deriving DecidableEq, Repr

/-- Struct `PromoCode` from src/client.go; `errorMsg` is the embedded `apiError`
field (JSON key "message"). -/
structure PromoCode where
  errorMsg : String
  code : String
  price : ℚ
  bookingFee : ℚ
  currency : String
  max : Int
  remaining : Int
  deriving DecidableEq, Repr

/-- Struct `Event` from src/client.go; `errorMsg` is its own error carrier
(JSON key "detail"). -/
structure Event where
  id : Int
  name : String
  tickets : List Ticket
  errorMsg : String
  deriving DecidableEq, Repr

/-- Struct `Booking` from src/client.go; `errorMsg` is the embedded `apiError`. -/
structure Booking where
  errorMsg : String
  event : Event
  name : String
  pdf : String
  state : Int
  deriving DecidableEq, Repr

/-- Insertion into a Go `map[bool]string` (the sold-out/expired check in
`Book` builds such a map as a composite literal): overwrite if present. -/
def boolMapInsert (m : List (Bool × String)) (k : Bool) (v : String) :
    List (Bool × String) :=
  if m.any (fun p => p.1 = k) then
    m.map (fun p => if p.1 = k then (k, v) else p)
  else m ++ [(k, v)]

/-- The map literal
`map[bool]string{ticket.SoldOut: "ticket selection has sold out",
ticket.Expired: "ticket selection has expired"}` from `Book`.  Go composite
literals insert entries in source order, later duplicates overwriting
earlier ones, so when `SoldOut = Expired` the expired message wins. -/
def soldExpiredMap (t : Ticket) : List (Bool × String) :=
  boolMapInsert
    (boolMapInsert [] t.soldOut "ticket selection has sold out")
    t.expired "ticket selection has expired"

/-- The loop `for t, msg := range m { if t { return nil, errors.New(msg) } }`:
return the message stored under key `true`, if any.  The map's keys are
distinct, so Go's unspecified iteration order cannot affect the result. -/
def soldExpiredCheck (t : Ticket) : Option String :=
  (soldExpiredMap t).lookup true

/-- The payload construction in `Book` (lines 218–239 of src/client.go):
start from `{ticket_id, amount}`, add `purchase_key` when
`BookingFee + Price > 0` (its value `key` is what `genKey()` returned),
add `promo_code` when `promo` is non-nil. -/
def bookPayload (ticket : Ticket) (amount : Int) (promo : Option PromoCode)
    (key : String) : List (String × PVal) :=
  let pl := mapInsert (mapInsert [] "ticket_id" (.int ticket.id))
    "amount" (.int amount)
  let pl := if ticket.bookingFee + ticket.price > 0 then
    mapInsert pl "purchase_key" (.str key) else pl
  match promo with
  | some p => mapInsert pl "promo_code" (.str p.code)
  | none => pl

/-- The local (pre-network) phase of `Book`: either a validation failure
(in which case no network call is issued) or the payload sent to the
booking endpoint. -/
inductive BookStep where
  | fail (msg : String)
  | send (pl : List (String × PVal))
  deriving DecidableEq, Repr

/-- Function `Book`'s validation and payload construction, in source order:
the sold-out/expired map check, then the maximum check
(`fmt.Errorf("cannot purchase more than the maximum (%d)", ticket.Max)`),
then payload construction. -/
def bookLocal (ticket : Ticket) (amount : Int) (promo : Option PromoCode)
    (key : String) : BookStep :=
  match soldExpiredCheck ticket with
  | some msg => .fail msg
  | none =>
    if amount > ticket.max then
      .fail ("cannot purchase more than the maximum (" ++ toString ticket.max ++ ")")
    else
      .send (bookPayload ticket amount promo key)

/-- Substring test: `containsSub s sub` holds when `sub` occurs contiguously
inside `s` (used to state "the error mentions ..."). -/
def containsSub (s sub : String) : Bool :=
  s.data.tails.any (fun t => sub.data.isPrefixOf t)

/-- A concrete ticket that is both sold out and expired (other fields
arbitrary), used as counterexample input. -/
def ticketBoth : Ticket :=
  ⟨101, "Tier 1", 0, "GBP", 10, 1, 4, true, true, false⟩

/-- A concrete ticket that is only sold out. -/
def ticketSoldOut : Ticket :=
  ⟨101, "Tier 1", 0, "GBP", 10, 1, 4, true, false, false⟩

/-- A concrete ticket that is only expired. -/
def ticketExpired : Ticket :=
  ⟨101, "Tier 1", 0, "GBP", 10, 1, 4, false, true, false⟩

/-- A concrete valid (neither sold out nor expired) paid ticket with
`Max = 3`. -/
def ticketValid : Ticket :=
  ⟨101, "Tier 1", 0, "GBP", 10, 1, 3, false, false, false⟩

/-- A concrete valid free ticket (`Price = 0`, `BookingFee = 0`). -/
def ticketFree : Ticket :=
  ⟨101, "Tier 1", 0, "GBP", 0, 0, 3, false, false, false⟩

/-- The body of one HTTP response, as seen after the JSON decode attempt:
either the body was malformed (`json.Decoder.Decode` failed with message
`msg`), or it parsed and the decoded target value is `val`. -/
inductive ParseResult (β : Type) where
  | malformed (msg : String)
  | parsed (val : β)
  deriving DecidableEq, Repr

/-- The observable effect of `decodeJSONResponse`: the error it returns
(`none` on success), the final state of the decode target `obj`, and
whether `clearError()` was invoked on the target. -/
structure DecodeStep (α : Type) where
  result : Option String
  obj : α
  clearInvoked : Bool
  deriving DecidableEq, Repr

/-- Function `decodeJSONResponse` (src/client.go lines 143–152).  On decode failure it
returns `errors.Wrap(err, "JSON decoding failed")` at once — the
`defer obj.clearError()` on the next line is never registered.  After a
successful decode the deferred `clearError()` is registered, `obj.error()`
is consulted (`len(Error) > 0`), and its message, if any, is the returned
error.  `applyDecode obj r` is the state of the target after
`json.Decode` merges the parsed response `r` into `obj`; `getErr`/`clear`
are the target's `error()`/`clearError()` methods. -/
def decodeJSONResponse {α β : Type} (applyDecode : α → β → α)
    (getErr : α → String) (clear : α → α) (obj : α) (body : ParseResult β) :
    DecodeStep α :=
  match body with
  | .malformed m => ⟨some ("JSON decoding failed: " ++ m), obj, false⟩
  | .parsed r =>
    let v := applyDecode obj r
    if (getErr v).length > 0 then ⟨some (getErr v), clear v, true⟩
    else ⟨none, clear v, true⟩

/-- Outcome of one dispatched HTTP request, as far as the client can
observe it: the transport failed, or a response body arrived. -/
inductive ReqOutcome (β : Type) where
  | transportError (msg : String)
  | response (body : ParseResult β)
  deriving DecidableEq, Repr

/-- The tail of `Client.req` (src/client.go lines 168–173): wrap a transport
failure as `errors.Wrap(err, "error executing request")`, otherwise close
the body and delegate to `decodeJSONResponse`.  Returns the final target
state and the error returned to the caller. -/
def runReq {α β : Type} (applyDecode : α → β → α) (getErr : α → String)
    (clear : α → α) (obj : α) (o : ReqOutcome β) : α × Option String :=
  match o with
  | .transportError m => (obj, some ("error executing request: " ++ m))
  | .response body =>
    let s := decodeJSONResponse applyDecode getErr clear obj body
    (s.obj, s.result)

/-- The Go zero value `Event{}` that `Client.Event` allocates. -/
def freshEvent : Event := ⟨0, "", [], ""⟩

/-- The Go zero value `PromoCode{}` that `Client.Promo` allocates. -/
def freshPromo : PromoCode := ⟨"", "", 0, 0, "", 0, 0⟩

/-- The Go zero value `Booking{}` that `Client.Book` allocates. -/
def freshBooking : Booking := ⟨"", freshEvent, "", "", 0⟩

/-- Method `Client.Event` (src/client.go lines 194–200): GET into a fresh `Event`;
on error return `(nil, errors.Wrap(err, "error getting event"))`, else the
decoded event. -/
def eventOp (o : ReqOutcome Event) : Option Event × Option String :=
  match runReq (fun _ r => r) Event.errorMsg
      (fun e => { e with errorMsg := "" }) freshEvent o with
  | (_, some e) => (none, some ("error getting event: " ++ e))
  | (ev, none) => (some ev, none)

/-- Method `Client.Promo` (src/client.go lines 205–211): GET into a fresh
`PromoCode`; errors wrapped "error getting promo code". -/
def promoOp (o : ReqOutcome PromoCode) : Option PromoCode × Option String :=
  match runReq (fun _ r => r) PromoCode.errorMsg
      (fun p => { p with errorMsg := "" }) freshPromo o with
  | (_, some e) => (none, some ("error getting promo code: " ++ e))
  | (p, none) => (some p, none)

/-- Method `Client.Book` end to end (src/client.go lines 215–248): the local
validation/payload phase (`bookLocal`), whose failures are returned
unwrapped with no network call, then the POST into a fresh `Booking`,
whose errors are wrapped "error booking ticket". -/
def bookOp (ticket : Ticket) (amount : Int) (promo : Option PromoCode)
    (key : String) (o : ReqOutcome Booking) : Option Booking × Option String :=
  match bookLocal ticket amount promo key with
  | .fail msg => (none, some msg)
  | .send _ =>
    match runReq (fun _ r => r) Booking.errorMsg
        (fun b => { b with errorMsg := "" }) freshBooking o with
    | (_, some e) => (none, some ("error booking ticket: " ++ e))
    | (bk, none) => (some bk, none)

/-- Modelled from the spec: `stripeUser` is defined in a repository file
outside src/ and is an "opaque pass-through" profile-payment object, so it
is modelled as an opaque blob. -/
structure StripeUser where
  blob : String
  deriving DecidableEq, Repr

/-- The mutable state of `Client` (src/client.go lines 58–67): the embedded
`apiError` message, identity fields, auth token and Stripe profile.  The
`httpClient` handle is external and carries no decodable state. -/
structure ClientState where
  errorMsg : String
  email : String
  firstName : String
  lastName : String
  magicURL : String
  authToken : String
  stripeUser : Option StripeUser
  deriving DecidableEq, Repr

/-- One parsed login-response body.  Each field is `some v` when the JSON
key was present (with value `v`) and `none` when absent —
`encoding/json` leaves fields whose key is absent untouched.  The keys are
"message" (via the embedded `apiError`), "Email" (untagged field name
match), "first_name", "last_name", "magic_login_url", "auth_token" and
"stripe_user" (whose JSON `null` sets the pointer to nil). -/
structure LoginResponse where
  message : Option String
  email : Option String
  firstName : Option String
  lastName : Option String
  magicURL : Option String
  authToken : Option String
  stripeUser : Option (Option StripeUser)
  deriving DecidableEq, Repr

/-- The effect of `json.Decode` on `c` when `Logon` decodes a login
response into the `Client` itself: every present key overwrites the
corresponding field in place. -/
def applyLogin (c : ClientState) (r : LoginResponse) : ClientState where
  errorMsg := r.message.getD c.errorMsg
  email := r.email.getD c.email
  firstName := r.firstName.getD c.firstName
  lastName := r.lastName.getD c.lastName
  magicURL := r.magicURL.getD c.magicURL
  authToken := r.authToken.getD c.authToken
  stripeUser := r.stripeUser.getD c.stripeUser

/-- Method `Client.Logon` (src/client.go lines 177–190): POST the
`{email, password}` payload unauthenticated and decode the response into
the `Client` itself; errors are wrapped "error logging on".  Returns the
client's state after the call together with the returned error. -/
def logonOp (c : ClientState) (o : ReqOutcome LoginResponse) :
    ClientState × Option String :=
  match runReq applyLogin ClientState.errorMsg
      (fun x => { x with errorMsg := "" }) c o with
  | (c2, some e) => (c2, some ("error logging on: " ++ e))
  | (c2, none) => (c2, none)

/-- Canonicalisation pass of Go's `textproto.CanonicalMIMEHeaderKey` over
the key's characters: the first character and every character following a
dash are uppercased, all others lowercased.  `up` records whether the
previous character was a dash (or the start).  The fallback for keys
containing invalid token characters is not modelled: every header name
this client uses is a valid token. -/
def canonChars : Bool → List Char → List Char
  | _, [] => []
  | up, c :: cs => (if up then c.toUpper else c.toLower) :: canonChars (c = '-') cs

/-- Go's `textproto.CanonicalMIMEHeaderKey`, applied by `http.Header.Set`. -/
def canonicalMIMEHeaderKey (s : String) : String :=
  String.mk (canonChars true s.data)

/-- Go's `http.Header.Set k v`: store `[v]` under the canonicalised key,
overwriting any existing entry.  `http.Header` is `map[string][]string`. -/
def headerSet (h : List (String × List String)) (k v : String) :
    List (String × List String) :=
  let ck := canonicalMIMEHeaderKey k
  if h.any (fun p => p.1 = ck) then
    h.map (fun p => if p.1 = ck then (ck, [v]) else p)
  else h ++ [(ck, [v])]

/-- Direct map assignment `req.Header[k] = v`, which the source uses to
circumvent canonical formatting: the literal key is stored unchanged. -/
def headerAssign (h : List (String × List String)) (k : String)
    (v : List String) : List (String × List String) :=
  if h.any (fun p => p.1 = k) then
    h.map (fun p => if p.1 = k then (k, v) else p)
  else h ++ [(k, v)]

/-- The first two header steps of `Client.req` (src/client.go lines
155–158): always set User-Agent; when `auth`, set Authorization to
`fmt.Sprintf("Token %s", c.AuthToken)`. -/
def reqHeadersPre (auth : Bool) (authToken : String) :
    List (String × List String) :=
  if auth then
    headerSet (headerSet [] "User-Agent" UserAgent)
      "Authorization" ("Token " ++ authToken)
  else headerSet [] "User-Agent" UserAgent

/-- The header construction of `Client.req` (src/client.go lines 154–167):
after `reqHeadersPre`, either the form content type (for the Stripe card
URL) or the JSON content type plus the three FIXR headers assigned
directly into the map to keep their literal casing. -/
def reqHeaders (url : String) (auth : Bool) (authToken : String) :
    List (String × List String) :=
  if url = cardURL then
    headerSet (reqHeadersPre auth authToken)
      "Content-Type" "application/x-www-form-urlencoded"
  else
    headerAssign
      (headerAssign
        (headerAssign
          (headerSet (reqHeadersPre auth authToken)
            "Content-Type" "application/json")
          "FIXR-Platform" ["web"])
        "FIXR-Platform-Version" [FixrPlatformVer])
      "FIXR-App-Version" [FixrVersion]

/-- A concrete promo code "SAVE10". -/
def promoSave : PromoCode := ⟨"", "SAVE10", 8, 1, "GBP", 3, 10⟩

/-- A concrete promo code with the same code as `promoSave` but different
price, booking fee, currency, max and remaining. -/
def promoSaveAlt : PromoCode := ⟨"", "SAVE10", 5, 0, "EUR", 2, 1⟩

/-- A freshly constructed client (`NewClient("eve@example.com")`). -/
def clientFresh : ClientState := ⟨"", "eve@example.com", "", "", "", "", none⟩

/-- A parsed login-response body that carries both profile fields and a
non-empty embedded error message. -/
def loginRespBad : LoginResponse :=
  ⟨some "invalid credentials", none, some "Eve", some "Smith",
    some "https://fixr.co/magic", some "TOK1", some (some ⟨"cus_1"⟩)⟩

theorem isPrefixOf_append_self (l t : List Char) :
    l.isPrefixOf (l ++ t) = true := by
  induction l with
  | nil => simp [List.isPrefixOf]
  | cons c cs ih => simp [List.isPrefixOf, ih]

/-- Predicate `startsWith s pre` holds when `pre` is a prefix of `s` (used to state
"the error is wrapped with tag ..."). -/
def startsWith (s pre : String) : Bool :=
  pre.data.isPrefixOf s.data

theorem startsWith_append (a b : String) : startsWith (a ++ b) a = true := by
  unfold startsWith
  rw [String.data_append]
  exact isPrefixOf_append_self a.data b.data

theorem containsSub_middle (a b c : String) :
    containsSub (a ++ b ++ c) b = true := by
  unfold containsSub
  rw [List.any_eq_true]
  refine ⟨b.data ++ c.data, ?_, isPrefixOf_append_self b.data c.data⟩
  rw [List.mem_tails, String.data_append, String.data_append, List.append_assoc]
  exact List.suffix_append a.data (b.data ++ c.data)

theorem containsSub_append_right (a b : String) :
    containsSub (a ++ b) b = true := by
  have h := containsSub_middle a b ""
  simpa using h

theorem string_length_pos_iff (s : String) : 0 < s.length ↔ s ≠ "" := by
  rw [Ne, String.ext_iff]
  obtain ⟨data⟩ := s
  rw [String.length_mk]
  cases data <;> simp

/-- Evaluating `soldExpiredCheck` in closed form: the Go map literal keeps the last
value written under a duplicate key, so when both flags are set the
expired message wins; otherwise each flag yields its own message. -/
theorem soldExpiredCheck_eq (t : Ticket) :
    soldExpiredCheck t =
      if t.expired then some "ticket selection has expired"
      else if t.soldOut then some "ticket selection has sold out"
      else none := by
  unfold soldExpiredCheck soldExpiredMap boolMapInsert
  cases hs : t.soldOut <;> cases he : t.expired <;> simp [List.lookup]

/-- Evaluating `bookPayload` in closed form: base fields, then the conditional
purchase key, then the conditional promo code. -/
theorem bookPayload_eq (t : Ticket) (a : Int) (promo : Option PromoCode)
    (key : String) :
    bookPayload t a promo key =
      [("ticket_id", PVal.int t.id), ("amount", PVal.int a)]
        ++ (if t.bookingFee + t.price > 0 then [("purchase_key", PVal.str key)] else [])
        ++ (match promo with
            | some p => [("promo_code", PVal.str p.code)]
            | none => []) := by
  unfold bookPayload mapInsert
  by_cases hq : t.bookingFee + t.price > 0 <;> cases promo <;> simp [hq]

theorem bookPayload_lookup_key (t : Ticket) (a : Int) (promo : Option PromoCode)
    (key : String) :
    (bookPayload t a promo key).lookup "purchase_key" =
      if t.bookingFee + t.price > 0 then some (PVal.str key) else none := by
  rw [bookPayload_eq]
  by_cases hq : t.bookingFee + t.price > 0 <;> cases promo <;>
    simp [hq, List.lookup]

theorem bookPayload_lookup_promo (t : Ticket) (a : Int)
    (promo : Option PromoCode) (key : String) :
    (bookPayload t a promo key).lookup "promo_code" =
      (promo.map fun p => PVal.str p.code) := by
  rw [bookPayload_eq]
  by_cases hq : t.bookingFee + t.price > 0 <;> cases promo <;>
    simp [hq, List.lookup]

/-- Evaluating `bookLocal` in closed form. -/
theorem bookLocal_eq (t : Ticket) (a : Int) (promo : Option PromoCode)
    (key : String) :
    bookLocal t a promo key =
      if t.expired then .fail "ticket selection has expired"
      else if t.soldOut then .fail "ticket selection has sold out"
      else if a > t.max then
        .fail ("cannot purchase more than the maximum (" ++ toString t.max ++ ")")
      else .send (bookPayload t a promo key) := by
  unfold bookLocal
  rw [soldExpiredCheck_eq]
  by_cases he : t.expired <;> by_cases hs : t.soldOut <;> simp [he, hs]

example : containsSub "ticket selection has sold out" "sold out" = true := by decide
example : containsSub "ticket selection has expired" "sold out" = false := by decide
example : bookLocal ticketBoth 1 none "k" = .fail "ticket selection has expired" := by decide
example : bookLocal ticketSoldOut 1 none "k" = .fail "ticket selection has sold out" := by decide
example : bookLocal ticketExpired 1 none "k" = .fail "ticket selection has expired" := by decide
example : bookLocal ticketValid 5 none "k" =
    .fail "cannot purchase more than the maximum (3)" := by decide
example : bookLocal ticketValid 2 none "k" =
    .send [("ticket_id", .int 101), ("amount", .int 2), ("purchase_key", .str "k")] := by
  norm_num [bookLocal, soldExpiredCheck, soldExpiredMap, boolMapInsert,
    bookPayload, mapInsert, ticketValid, List.lookup]
  decide
example : bookLocal ticketFree 2 none "k" =
    .send [("ticket_id", .int 101), ("amount", .int 2)] := by
  norm_num [bookLocal, soldExpiredCheck, soldExpiredMap, boolMapInsert,
    bookPayload, mapInsert, ticketFree, List.lookup]
  decide

/-- Claim C1 counterexample.  `ticketBoth` has `SoldOut = true`, yet `Book`
deterministically returns the expired message — which does not mention
"sold out" — because the Go map literal stores both messages under the
single key `true` and the last one wins. -/
theorem book_soldOut_claim_false :
    ticketBoth.soldOut = true ∧
    bookOp ticketBoth 1 none "k" (.transportError "net down") =
      (none, some "ticket selection has expired") ∧
    containsSub "ticket selection has expired" "sold out" = false := by
  decide

/-- Claim C1, amended.  `Book`'s sold-out/expired validation is
deterministic, but with the opposite precedence to the one claimed: a
ticket that is sold out and not expired always fails with the sold-out
message, while a ticket that is expired — even one that is also sold
out — always fails with the expired message, for every amount, promo,
key and transport outcome. -/
theorem book_soldOut_expired_precedence (t : Ticket) (a : Int)
    (promo : Option PromoCode) (key : String) (o : ReqOutcome Booking) :
    (t.soldOut = true → t.expired = false →
      bookOp t a promo key o = (none, some "ticket selection has sold out")) ∧
    (t.expired = true →
      bookOp t a promo key o = (none, some "ticket selection has expired")) := by
  unfold bookOp
  rw [bookLocal_eq]
  constructor
  · intro hs he
    simp [hs, he]
  · intro he
    simp [he]

/-- Witness for claim C1: the amended precedence evaluated on concrete
tickets. -/
theorem book_soldOut_expired_precedence_witness :
    bookOp ticketSoldOut 2 none "k" (.transportError "net down") =
      (none, some "ticket selection has sold out") ∧
    bookOp ticketBoth 2 none "k" (.transportError "net down") =
      (none, some "ticket selection has expired") :=
  ⟨(book_soldOut_expired_precedence ticketSoldOut 2 none "k" _).1 rfl rfl,
   (book_soldOut_expired_precedence ticketBoth 2 none "k" _).2 rfl⟩

/-- Claim C4.  For a ticket that is neither sold out nor expired, asking for
more than `Max` fails locally with the maximum-exceeded message, which
mentions the maximum value; the result is the same for every transport
outcome, i.e. no network call is issued. -/
theorem book_max_exceeded (t : Ticket) (a : Int) (promo : Option PromoCode)
    (key : String) (hs : t.soldOut = false) (he : t.expired = false)
    (hm : a > t.max) :
    bookLocal t a promo key =
      .fail ("cannot purchase more than the maximum (" ++ toString t.max ++ ")") ∧
    containsSub ("cannot purchase more than the maximum (" ++ toString t.max ++ ")")
      (toString t.max) = true ∧
    ∀ o, bookOp t a promo key o =
      (none, some ("cannot purchase more than the maximum (" ++ toString t.max ++ ")")) := by
  have h1 : bookLocal t a promo key =
      .fail ("cannot purchase more than the maximum (" ++ toString t.max ++ ")") := by
    rw [bookLocal_eq]
    simp [hs, he, hm]
  refine ⟨h1, containsSub_middle "cannot purchase more than the maximum ("
    (toString t.max) ")", fun o => ?_⟩
  unfold bookOp
  rw [h1]

/-- Witness for claim C4: `amount = 5` against `Max = 3`. -/
theorem book_max_exceeded_witness :
    (5 : Int) > ticketValid.max ∧
    bookOp ticketValid 5 none "k" (.transportError "net down") =
      (none, some ("cannot purchase more than the maximum ("
        ++ toString ticketValid.max ++ ")")) :=
  ⟨by decide,
   (book_max_exceeded ticketValid 5 none "k" rfl rfl (by decide)).2.2 _⟩

/-- Claim C5.  Whenever `Book` reaches the network phase with payload `pl`,
`pl` carries a `purchase_key` entry — holding the key generator's output —
exactly when `BookingFee + Price > 0`; in particular a free ticket never
gets one. -/
theorem book_purchase_key_iff (t : Ticket) (a : Int) (promo : Option PromoCode)
    (key : String) (pl : List (String × PVal))
    (h : bookLocal t a promo key = .send pl) :
    (pl.lookup "purchase_key" =
      if t.bookingFee + t.price > 0 then some (PVal.str key) else none) ∧
    (t.price = 0 → t.bookingFee = 0 → pl.lookup "purchase_key" = none) := by
  rw [bookLocal_eq] at h
  by_cases he : t.expired
  · simp [he] at h
  by_cases hs : t.soldOut
  · simp [he, hs] at h
  by_cases hm : a > t.max
  · simp [he, hs, hm] at h
  simp [he, hs, hm] at h
  subst h
  refine ⟨bookPayload_lookup_key t a promo key, fun h0 h1 => ?_⟩
  rw [bookPayload_lookup_key]
  simp [h0, h1]

/-- Witness for claim C5: a paid ticket gets the key, a free one does not. -/
theorem book_purchase_key_iff_witness :
    ((bookPayload ticketValid 2 none "k").lookup "purchase_key" =
      if ticketValid.bookingFee + ticketValid.price > 0 then
        some (PVal.str "k") else none) ∧
    ((bookPayload ticketFree 2 none "k").lookup "purchase_key" = none) :=
  ⟨(book_purchase_key_iff ticketValid 2 none "k"
      (bookPayload ticketValid 2 none "k")
      (by rw [bookLocal_eq]; norm_num [ticketValid])).1,
   (book_purchase_key_iff ticketFree 2 none "k"
      (bookPayload ticketFree 2 none "k")
      (by rw [bookLocal_eq]; norm_num [ticketFree])).2 rfl rfl⟩

/-- Claim C6.  Whenever `Book` reaches the network phase with payload `pl`,
`pl` carries a `promo_code` entry equal to `promo.Code` exactly when the
promo argument is non-nil; with a nil promo the field is absent. -/
theorem book_promo_code_iff (t : Ticket) (a : Int) (promo : Option PromoCode)
    (key : String) (pl : List (String × PVal))
    (h : bookLocal t a promo key = .send pl) :
    pl.lookup "promo_code" = (promo.map fun p => PVal.str p.code) := by
  rw [bookLocal_eq] at h
  by_cases he : t.expired
  · simp [he] at h
  by_cases hs : t.soldOut
  · simp [he, hs] at h
  by_cases hm : a > t.max
  · simp [he, hs, hm] at h
  simp [he, hs, hm] at h
  subst h
  exact bookPayload_lookup_promo t a promo key

/-- Witness for claim C6: promo "SAVE10" present, nil promo absent. -/
theorem book_promo_code_iff_witness :
    ((bookPayload ticketValid 2 (some promoSave) "k").lookup "promo_code" =
      ((some promoSave).map fun p => PVal.str p.code)) ∧
    ((bookPayload ticketFree 2 none "k").lookup "promo_code" =
      ((none : Option PromoCode).map fun p => PVal.str p.code)) :=
  ⟨book_promo_code_iff ticketValid 2 (some promoSave) "k"
      (bookPayload ticketValid 2 (some promoSave) "k")
      (by rw [bookLocal_eq]; norm_num [ticketValid]),
   book_promo_code_iff ticketFree 2 none "k"
      (bookPayload ticketFree 2 none "k")
      (by rw [bookLocal_eq]; norm_num [ticketFree])⟩

/-- Claim C10.  `Book`'s local behaviour reads a non-nil promo only through
its `Code`: two promos with the same code but arbitrary other fields give
the identical validation outcome, payload, and end-to-end result. -/
theorem book_promo_dependence (t : Ticket) (a : Int) (key : String)
    (p1 p2 : PromoCode) (h : p1.code = p2.code) :
    bookLocal t a (some p1) key = bookLocal t a (some p2) key ∧
    ∀ o, bookOp t a (some p1) key o = bookOp t a (some p2) key o := by
  have hb : bookPayload t a (some p1) key = bookPayload t a (some p2) key := by
    rw [bookPayload_eq, bookPayload_eq]
    simp [h]
  have hl : bookLocal t a (some p1) key = bookLocal t a (some p2) key := by
    rw [bookLocal_eq, bookLocal_eq, hb]
  refine ⟨hl, fun o => ?_⟩
  unfold bookOp
  rw [hl]

/-- Witness for claim C10: `promoSave` and `promoSaveAlt` share the code
"SAVE10" but differ in price, booking fee, currency, max and remaining. -/
theorem book_promo_dependence_witness :
    promoSave ≠ promoSaveAlt ∧
    bookLocal ticketValid 2 (some promoSave) "k" =
      bookLocal ticketValid 2 (some promoSaveAlt) "k" :=
  ⟨by decide, (book_promo_dependence ticketValid 2 "k" promoSave promoSaveAlt rfl).1⟩

/-- Claim C2 counterexample.  When the body is malformed, `decodeJSONResponse`
returns before the `defer obj.clearError()` is registered: `clearError` is
not invoked and a stale error survives on the target. -/
theorem decode_clear_skipped_on_parse_failure :
    (decodeJSONResponse (fun (_ : Event) (r : Event) => r) Event.errorMsg
        (fun e => { e with errorMsg := "" }) { freshEvent with errorMsg := "stale" }
        (.malformed "unexpected EOF")).clearInvoked = false ∧
    (decodeJSONResponse (fun (_ : Event) (r : Event) => r) Event.errorMsg
        (fun e => { e with errorMsg := "" }) { freshEvent with errorMsg := "stale" }
        (.malformed "unexpected EOF")).obj.errorMsg = "stale" := by
  decide

/-- Claim C2, amended.  `clearError()` is invoked on the decode target
exactly when the body parses successfully (both on the embedded-error and
on the success outcome, leaving the target's error field empty); on a
parse failure it is not invoked and the target is left untouched.
`hclear` states that the target type's `clearError()` empties its error
field, which holds for every `responseParams` implementation in the
source. -/
theorem decode_clearError_iff_parsed {α β : Type} (applyDecode : α → β → α)
    (getErr : α → String) (clear : α → α) (obj : α) (body : ParseResult β)
    (hclear : ∀ v, getErr (clear v) = "") :
    ((decodeJSONResponse applyDecode getErr clear obj body).clearInvoked =
      match body with
      | .malformed _ => false
      | .parsed _ => true) ∧
    (∀ r, body = .parsed r →
      getErr (decodeJSONResponse applyDecode getErr clear obj body).obj = "") ∧
    (∀ m, body = .malformed m →
      (decodeJSONResponse applyDecode getErr clear obj body).obj = obj) := by
  cases body with
  | malformed m => simp [decodeJSONResponse]
  | parsed r =>
    have hobj : ∀ r' : β, ParseResult.parsed r = ParseResult.parsed r' →
        getErr (decodeJSONResponse applyDecode getErr clear obj
          (ParseResult.parsed r)).obj = "" := by
      intro r' _
      by_cases h : (getErr (applyDecode obj r)).length > 0 <;>
        simp [decodeJSONResponse, h, hclear]
    refine ⟨?_, hobj, by simp⟩
    by_cases h : (getErr (applyDecode obj r)).length > 0 <;>
      simp [decodeJSONResponse, h]

/-- Witness for claim C2: a parsed body carrying an embedded error
has `clearError` invoked and leaves no stale error behind. -/
theorem decode_clearError_iff_parsed_witness :
    (decodeJSONResponse (fun (_ : Event) (r : Event) => r) Event.errorMsg
        (fun e => { e with errorMsg := "" }) freshEvent
        (.parsed { freshEvent with errorMsg := "boom" })).clearInvoked = true ∧
    Event.errorMsg (decodeJSONResponse (fun (_ : Event) (r : Event) => r)
        Event.errorMsg (fun e => { e with errorMsg := "" }) freshEvent
        (.parsed { freshEvent with errorMsg := "boom" })).obj = "" :=
  ⟨(decode_clearError_iff_parsed (fun _ r => r) Event.errorMsg
      (fun e => { e with errorMsg := "" }) freshEvent
      (.parsed { freshEvent with errorMsg := "boom" }) (fun _ => rfl)).1,
   (decode_clearError_iff_parsed (fun _ r => r) Event.errorMsg
      (fun e => { e with errorMsg := "" }) freshEvent
      (.parsed { freshEvent with errorMsg := "boom" }) (fun _ => rfl)).2.1
      { freshEvent with errorMsg := "boom" } rfl⟩

/-- Claim C3.  For a body that parses successfully: a non-empty embedded
error makes the operation return `(none, wrapped error containing the
embedded text)`, and an empty one makes it return the populated decoded
value with no error — shown for `Event`, `Promo`, and the network phase of
`Book`. -/
theorem ops_embedded_error_dichotomy :
    (∀ r : Event, r.errorMsg ≠ "" →
      eventOp (.response (.parsed r)) =
        (none, some ("error getting event: " ++ r.errorMsg)) ∧
      containsSub ("error getting event: " ++ r.errorMsg) r.errorMsg = true) ∧
    (∀ r : Event, r.errorMsg = "" →
      eventOp (.response (.parsed r)) = (some { r with errorMsg := "" }, none)) ∧
    (∀ p : PromoCode, p.errorMsg ≠ "" →
      promoOp (.response (.parsed p)) =
        (none, some ("error getting promo code: " ++ p.errorMsg)) ∧
      containsSub ("error getting promo code: " ++ p.errorMsg) p.errorMsg = true) ∧
    (∀ p : PromoCode, p.errorMsg = "" →
      promoOp (.response (.parsed p)) = (some { p with errorMsg := "" }, none)) ∧
    (∀ (t : Ticket) (a : Int) (promo : Option PromoCode) (key : String)
        (pl : List (String × PVal)) (b : Booking),
      bookLocal t a promo key = .send pl → b.errorMsg ≠ "" →
      bookOp t a promo key (.response (.parsed b)) =
        (none, some ("error booking ticket: " ++ b.errorMsg))) ∧
    (∀ (t : Ticket) (a : Int) (promo : Option PromoCode) (key : String)
        (pl : List (String × PVal)) (b : Booking),
      bookLocal t a promo key = .send pl → b.errorMsg = "" →
      bookOp t a promo key (.response (.parsed b)) =
        (some { b with errorMsg := "" }, none)) := by
  have hlen : ∀ s : String, s ≠ "" → 0 < s.length := by
    intro s hs
    exact (string_length_pos_iff s).mpr hs
  have hlen0 : ∀ s : String, s = "" → ¬ 0 < s.length := by
    intro s hs
    simp [hs]
  refine ⟨?_, ?_, ?_, ?_, ?_, ?_⟩
  · intro r hr
    refine ⟨?_, containsSub_append_right "error getting event: " r.errorMsg⟩
    simp [eventOp, runReq, decodeJSONResponse, hlen r.errorMsg hr]
  · intro r hr
    simp [eventOp, runReq, decodeJSONResponse, hlen0 r.errorMsg hr]
  · intro p hp
    refine ⟨?_, containsSub_append_right "error getting promo code: " p.errorMsg⟩
    simp [promoOp, runReq, decodeJSONResponse, hlen p.errorMsg hp]
  · intro p hp
    simp [promoOp, runReq, decodeJSONResponse, hlen0 p.errorMsg hp]
  · intro t a promo key pl b h hb
    unfold bookOp
    rw [h]
    simp [runReq, decodeJSONResponse, hlen b.errorMsg hb]
  · intro t a promo key pl b h hb
    unfold bookOp
    rw [h]
    simp [runReq, decodeJSONResponse, hlen0 b.errorMsg hb]

/-- Witness for claim C3: concrete parsed bodies with and without embedded
errors. -/
theorem ops_embedded_error_dichotomy_witness :
    eventOp (.response (.parsed { freshEvent with errorMsg := "not found" })) =
      (none, some ("error getting event: " ++ "not found")) ∧
    eventOp (.response (.parsed { freshEvent with id := 7, name := "gig" })) =
      (some { freshEvent with id := 7, name := "gig" }, none) :=
  ⟨(ops_embedded_error_dichotomy.1 { freshEvent with errorMsg := "not found" }
      (by decide)).1,
   by
    have h := ops_embedded_error_dichotomy.2.1
      { freshEvent with id := 7, name := "gig" } rfl
    simpa using h⟩

/-- Claim C9.  `Logon` is not atomic on its receiver: when the response
parses but carries a non-empty embedded error message `m`, the call
returns the wrapped error, yet the client's state has already been
overwritten in place by the decode (`applyLogin`), with only the error
carrier cleared afterwards. -/
theorem logon_mutates_client_on_embedded_error (c : ClientState)
    (r : LoginResponse) (m : String) (hm : r.message = some m) (hne : m ≠ "") :
    logonOp c (.response (.parsed r)) =
      ({ applyLogin c r with errorMsg := "" }, some ("error logging on: " ++ m)) := by
  have herr : (applyLogin c r).errorMsg = m := by
    simp [applyLogin, hm]
  have hmlen : 0 < m.length := (string_length_pos_iff m).mpr hne
  simp [logonOp, runReq, decodeJSONResponse, herr, hmlen]

/-- Witness for claim C9: a failed logon that changed the client's name,
magic URL, auth token and Stripe profile. -/
theorem logon_mutates_client_witness :
    logonOp clientFresh (.response (.parsed loginRespBad)) =
      ({ applyLogin clientFresh loginRespBad with errorMsg := "" },
        some ("error logging on: " ++ "invalid credentials")) ∧
    ({ applyLogin clientFresh loginRespBad with errorMsg := "" } : ClientState)
      ≠ clientFresh ∧
    ({ applyLogin clientFresh loginRespBad with errorMsg := "" } : ClientState).authToken
      = "TOK1" :=
  ⟨logon_mutates_client_on_embedded_error clientFresh loginRespBad
      "invalid credentials" rfl (by decide),
   by decide, by decide⟩

/-- Claim C7 counterexample.  `Book`'s sold-out validation error is returned
to the caller as-is, without the "error booking ticket" contextual tag. -/
theorem book_validation_error_untagged :
    (bookOp ticketSoldOut 1 none "k" (.transportError "net down")).2 =
      some "ticket selection has sold out" ∧
    containsSub "ticket selection has sold out" "error booking ticket" = false := by
  decide

/-- Claim C7, amended.  Every result-returning operation yields a populated
result exactly when it yields no error; errors reaching the caller through
the transport/decode path are wrapped with the operation's contextual tag
("error getting event", "error getting promo code", "error logging on",
"error booking ticket") — but `Book`'s local validation errors are
returned without the booking tag (see the counterexample). -/
theorem ops_result_error_discipline :
    (∀ o : ReqOutcome Event, (eventOp o).1.isSome = (eventOp o).2.isNone) ∧
    (∀ o : ReqOutcome PromoCode, (promoOp o).1.isSome = (promoOp o).2.isNone) ∧
    (∀ (t : Ticket) (a : Int) (promo : Option PromoCode) (key : String)
        (o : ReqOutcome Booking),
      (bookOp t a promo key o).1.isSome = (bookOp t a promo key o).2.isNone) ∧
    (∀ (o : ReqOutcome Event) (e : String), (eventOp o).2 = some e →
      startsWith e "error getting event: " = true) ∧
    (∀ (o : ReqOutcome PromoCode) (e : String), (promoOp o).2 = some e →
      startsWith e "error getting promo code: " = true) ∧
    (∀ (c : ClientState) (o : ReqOutcome LoginResponse) (e : String),
      (logonOp c o).2 = some e → startsWith e "error logging on: " = true) ∧
    (∀ (t : Ticket) (a : Int) (promo : Option PromoCode) (key : String)
        (pl : List (String × PVal)) (o : ReqOutcome Booking) (e : String),
      bookLocal t a promo key = .send pl →
      (bookOp t a promo key o).2 = some e →
      startsWith e "error booking ticket: " = true) := by
  refine ⟨?_, ?_, ?_, ?_, ?_, ?_, ?_⟩
  · intro o
    unfold eventOp
    rcases hr : runReq (fun _ r => r) Event.errorMsg
      (fun e => { e with errorMsg := "" }) freshEvent o with ⟨ev, err⟩
    cases err <;> simp
  · intro o
    unfold promoOp
    rcases hr : runReq (fun _ r => r) PromoCode.errorMsg
      (fun p => { p with errorMsg := "" }) freshPromo o with ⟨p, err⟩
    cases err <;> simp
  · intro t a promo key o
    unfold bookOp
    rcases hb : bookLocal t a promo key with msg | pl
    · simp
    · rcases hr : runReq (fun _ r => r) Booking.errorMsg
        (fun b => { b with errorMsg := "" }) freshBooking o with ⟨bk, err⟩
      cases err <;> simp
  · intro o e h
    unfold eventOp at h
    rcases hr : runReq (fun _ r => r) Event.errorMsg
      (fun x => { x with errorMsg := "" }) freshEvent o with ⟨ev, err⟩
    rw [hr] at h
    cases err with
    | none => simp at h
    | some msg =>
      simp at h
      subst h
      exact startsWith_append "error getting event: " msg
  · intro o e h
    unfold promoOp at h
    rcases hr : runReq (fun _ r => r) PromoCode.errorMsg
      (fun x => { x with errorMsg := "" }) freshPromo o with ⟨p, err⟩
    rw [hr] at h
    cases err with
    | none => simp at h
    | some msg =>
      simp at h
      subst h
      exact startsWith_append "error getting promo code: " msg
  · intro c o e h
    unfold logonOp at h
    rcases hr : runReq applyLogin ClientState.errorMsg
      (fun x => { x with errorMsg := "" }) c o with ⟨c2, err⟩
    rw [hr] at h
    cases err with
    | none => simp at h
    | some msg =>
      simp at h
      subst h
      exact startsWith_append "error logging on: " msg
  · intro t a promo key pl o e hsend h
    unfold bookOp at h
    rw [hsend] at h
    rcases hr : runReq (fun _ r => r) Booking.errorMsg
      (fun x => { x with errorMsg := "" }) freshBooking o with ⟨bk, err⟩
    rw [hr] at h
    cases err with
    | none => simp at h
    | some msg =>
      simp at h
      subst h
      exact startsWith_append "error booking ticket: " msg

/-- Witness for claim C7: concrete wrapped errors on the event,
logon and booking network paths. -/
theorem ops_result_error_discipline_witness :
    startsWith "error getting event: error executing request: net down"
      "error getting event: " = true ∧
    startsWith "error logging on: JSON decoding failed: unexpected EOF"
      "error logging on: " = true ∧
    startsWith "error booking ticket: error executing request: net down"
      "error booking ticket: " = true :=
  ⟨ops_result_error_discipline.2.2.2.1 (.transportError "net down")
      "error getting event: error executing request: net down" (by decide),
   ops_result_error_discipline.2.2.2.2.2.1 clientFresh
      (.response (.malformed "unexpected EOF"))
      "error logging on: JSON decoding failed: unexpected EOF" (by decide),
   ops_result_error_discipline.2.2.2.2.2.2 ticketFree 2 none "k"
      (bookPayload ticketFree 2 none "k") (.transportError "net down")
      "error booking ticket: error executing request: net down"
      (by rw [bookLocal_eq]; norm_num [ticketFree])
      (by
        have h : bookLocal ticketFree 2 none "k" =
            .send (bookPayload ticketFree 2 none "k") := by
          rw [bookLocal_eq]
          norm_num [ticketFree]
        unfold bookOp
        rw [h]
        rfl)⟩

/-- Claim C8.  For every outbound request: the Stripe card URL gets the
URL-encoded form content type (and no FIXR headers); every other URL gets
the JSON content type and the three vendor headers stored under their
literal, non-canonicalised names with their declared values; an
authenticated request carries `Authorization: Token <auth_token>` — for
any token, including the empty one — and an unauthenticated one carries
no Authorization header; User-Agent is always set. -/
theorem reqHeaders_spec (url : String) (auth : Bool) (tok : String) :
    (url = cardURL →
      (reqHeaders url auth tok).lookup "Content-Type" =
        some ["application/x-www-form-urlencoded"] ∧
      (reqHeaders url auth tok).lookup "FIXR-Platform" = none) ∧
    (url ≠ cardURL →
      (reqHeaders url auth tok).lookup "Content-Type" =
        some ["application/json"] ∧
      (reqHeaders url auth tok).lookup "FIXR-Platform" = some ["web"] ∧
      (reqHeaders url auth tok).lookup "FIXR-Platform-Version" =
        some [FixrPlatformVer] ∧
      (reqHeaders url auth tok).lookup "FIXR-App-Version" = some [FixrVersion]) ∧
    (auth = true →
      (reqHeaders url auth tok).lookup "Authorization" = some ["Token " ++ tok]) ∧
    (auth = false →
      (reqHeaders url auth tok).lookup "Authorization" = none) ∧
    (reqHeaders url auth tok).lookup "User-Agent" = some [UserAgent] := by
  unfold reqHeaders
  by_cases hc : url = cardURL
  · rw [if_pos hc]
    cases auth
    · exact ⟨fun _ => ⟨rfl, rfl⟩, fun h => absurd hc h, fun h => Bool.noConfusion h,
        fun _ => rfl, rfl⟩
    · exact ⟨fun _ => ⟨rfl, rfl⟩, fun h => absurd hc h, fun _ => rfl,
        fun h => Bool.noConfusion h, rfl⟩
  · rw [if_neg hc]
    cases auth
    · exact ⟨fun h => absurd h hc, fun _ => ⟨rfl, rfl, rfl, rfl⟩,
        fun h => Bool.noConfusion h, fun _ => rfl, rfl⟩
    · exact ⟨fun h => absurd h hc, fun _ => ⟨rfl, rfl, rfl, rfl⟩,
        fun _ => rfl, fun h => Bool.noConfusion h, rfl⟩

/-- Witness for claim C8: the booking URL with a token, the booking URL with
the still-empty token, and the card URL. -/
theorem reqHeaders_spec_witness :
    (reqHeaders bookingURL true "TOK1").lookup "Content-Type" =
      some ["application/json"] ∧
    (reqHeaders bookingURL true "TOK1").lookup "FIXR-Platform" =
      some ["web"] ∧
    (reqHeaders bookingURL true "TOK1").lookup "Authorization" =
      some ["Token " ++ "TOK1"] ∧
    (reqHeaders bookingURL true "").lookup "Authorization" =
      some ["Token " ++ ""] ∧
    (reqHeaders cardURL false "").lookup "Content-Type" =
      some ["application/x-www-form-urlencoded"] :=
  ⟨((reqHeaders_spec bookingURL true "TOK1").2.1 (by decide)).1,
   ((reqHeaders_spec bookingURL true "TOK1").2.1 (by decide)).2.1,
   (reqHeaders_spec bookingURL true "TOK1").2.2.1 rfl,
   (reqHeaders_spec bookingURL true "").2.2.1 rfl,
   ((reqHeaders_spec cardURL false "").1 rfl).1⟩
